import Mathlib

/-!
Verification of the accessor and ability-computation layer of a decoded Move
bytecode module (file `move-binary-format/src/access.rs`).

The `ModuleAccess` trait is embedded as functions over a `CompiledModule`
record.  Rust panics (out-of-bounds slice indexing) are modelled by a distinct
`panicked` outcome, and the structured `PartialVMResult` error by `err`, so the
two failure tiers of the design stay distinguishable.  Types that `access.rs`
imports from `file_format.rs` (`AbilitySet` with its constants and
`polymorphic_abilities`, `SignatureToken`, the pools of `CompiledModule`) are
modelled from the specification, as marked on each definition.
-/

namespace MoveAccess

/-- Modelled from the spec: the four abilities COPY, DROP, STORE, KEY
(declared in `file_format.rs`, outside the given excerpt). -/
inductive Ability where
  | copy
  | drop
  | store
  | key
deriving DecidableEq, Repr

/-- Modelled from the spec: `AbilitySet`, a fixed small set drawn from
\x7bCOPY, DROP, STORE, KEY\x7d, represented by one flag per ability
(the source represents it as a bitset). -/
structure AbilitySet where
  has_copy : Bool
  has_drop : Bool
  has_store : Bool
  has_key : Bool
deriving DecidableEq, Repr

/-- Membership test of an ability in an `AbilitySet`. -/
def AbilitySet.contains (s : AbilitySet) : Ability → Bool
  | .copy => s.has_copy
  | .drop => s.has_drop
  | .store => s.has_store
  | .key => s.has_key

/-- Set intersection of two ability sets (the set-algebra operation used for
polymorphic propagation, bitwise `&` in the source). -/
def AbilitySet.inter (a b : AbilitySet) : AbilitySet :=
  ⟨a.has_copy && b.has_copy, a.has_drop && b.has_drop,
   a.has_store && b.has_store, a.has_key && b.has_key⟩

/-- Boolean subset test between ability sets. -/
def AbilitySet.subsetB (a b : AbilitySet) : Bool :=
  (!a.has_copy || b.has_copy) && (!a.has_drop || b.has_drop) &&
    (!a.has_store || b.has_store) && (!a.has_key || b.has_key)

/-- Modelled from the spec: the empty ability set. -/
def AbilitySet.EMPTY : AbilitySet := ⟨false, false, false, false⟩

/-- Modelled from the spec: PRIMITIVES = \x7bCOPY, DROP, STORE\x7d. -/
def AbilitySet.PRIMITIVES : AbilitySet := ⟨true, true, true, false⟩

/-- Modelled from the spec: REFERENCES = \x7bCOPY, DROP\x7d. -/
def AbilitySet.REFERENCES : AbilitySet := ⟨true, true, false, false⟩

/-- Modelled from the spec: SIGNER = \x7bDROP\x7d. -/
def AbilitySet.SIGNER : AbilitySet := ⟨false, true, false, false⟩

/-- Modelled from the spec: VECTOR, the declared base capability set of the
built-in container type constructor; per the spec it is a subset of
PRIMITIVES and the scenario `abilities(Vector(U8), [])` evaluates to VECTOR's
full declared set, so VECTOR = \x7bCOPY, DROP, STORE\x7d. -/
def AbilitySet.VECTOR : AbilitySet := ⟨true, true, true, false⟩

/-- Modelled from the spec: the descriptive status code carried by the
structured validation error raised on an ability-arity mismatch. -/
inductive StatusCode where
  | typeArityMismatch
deriving DecidableEq, Repr

/-- Outcome of a fallible Rust computation: `ok` for `Ok(..)`, `err` for a
structured `Err(PartialVMError ..)` result, and `panicked` for a Rust panic
(out-of-bounds slice indexing), which is a distinct failure mode. -/
inductive RustResult (α : Type) where
  | ok (val : α)
  | err (code : StatusCode)
  | panicked
deriving DecidableEq, Repr

/-- Modelled from the spec: `AbilitySet::polymorphic_abilities` (declared in
`file_format.rs`, outside the given excerpt).  Given a declared base set, a
positional list of phantom flags and the computed ability sets of the type
arguments, an ability survives iff it is in the declared set and in every
argument set at a non-phantom position; a length mismatch between the phantom
flags and the argument sets is a structured validation error. -/
def AbilitySet.polymorphic_abilities (declared : AbilitySet) (phantoms : List Bool)
    (type_arguments : List AbilitySet) : RustResult AbilitySet :=
  if phantoms.length = type_arguments.length then
    .ok (((type_arguments.zip phantoms).filter (fun p => !p.2)).foldl
      (fun acc p => acc.inter p.1) declared)
  else
    .err .typeArityMismatch

/-- Modelled from the spec: `SignatureToken`, the recursive type-expression
sum type of `file_format.rs`.  Pool indices are embedded as `Nat`. -/
inductive SignatureToken where
  | Bool
  | U8
  | U16
  | U32
  | U64
  | U128
  | U256
  | Address
  | Signer
  | Reference (inner : SignatureToken)
  | MutableReference (inner : SignatureToken)
  | TypeParameter (idx : Nat)
  | Vector (elem : SignatureToken)
  | Struct (idx : Nat)
  | StructInstantiation (idx : Nat) (type_args : List SignatureToken)

/-- Modelled from the spec: one declared type parameter of a struct handle,
its ability constraints and its phantom flag. -/
structure StructTypeParameter where
  constraints : AbilitySet
  is_phantom : Bool
deriving DecidableEq, Repr

/-- Modelled from the spec: `StructHandle` — module and name pool indices,
declared abilities, and declared type parameters. -/
structure StructHandle where
  module : Nat
  name : Nat
  abilities : AbilitySet
  type_parameters : List StructTypeParameter
deriving DecidableEq, Repr

/-- Modelled from the spec: `ModuleHandle` — an address-identifier pool index
and an identifier pool index.  Equality is structural (derived `PartialEq` in
the source). -/
structure ModuleHandle where
  address : Nat
  name : Nat
deriving DecidableEq, Repr

/-- Modelled from the spec: a module id, the resolved (address, name) pair.
Address identifiers and identifiers are embedded as opaque `Nat` values. -/
structure ModuleId where
  address : Nat
  name : Nat
deriving DecidableEq, Repr

/-- Modelled from the spec: the pools of `CompiledModule` that the accessor
operations under verification read (the remaining pools of `file_format.rs`
play no part in these operations). -/
structure CompiledModule where
  self_module_handle_idx : Nat
  module_handles : List ModuleHandle
  struct_handles : List StructHandle
  friend_decls : List ModuleHandle
  address_identifiers : List Nat
  identifiers : List Nat
deriving DecidableEq, Repr

/-- Embeds `ModuleAccess::self_handle`: index the module-handle pool at
`self_module_handle_idx`; an out-of-bounds index is a Rust panic, modelled
as `none`. -/
def CompiledModule.self_handle (m : CompiledModule) : Option ModuleHandle :=
  m.module_handles[m.self_module_handle_idx]?

/-- Embeds `module_id_for_handle`: resolve a handle's address and name pool
indices to a `ModuleId`; an out-of-bounds index is a Rust panic (`none`). -/
def CompiledModule.module_id_for_handle (m : CompiledModule) (h : ModuleHandle) :
    Option ModuleId :=
  match m.address_identifiers[h.address]?, m.identifiers[h.name]? with
  | some a, some n => some ⟨a, n⟩
  | _, _ => none

/-- Embeds the `.map(|handle| self.module_id_for_handle(handle)).collect()`
iterator chains of `immediate_dependencies` and `immediate_friends`: resolve
each handle in order, propagating a panic from any element. -/
def CompiledModule.resolveAll (m : CompiledModule) :
    List ModuleHandle → Option (List ModuleId)
  | [] => some []
  | h :: rest =>
    match m.module_id_for_handle h, m.resolveAll rest with
    | some i, some rest_ids => some (i :: rest_ids)
    | _, _ => none

/-- Embeds `ModuleAccess::immediate_dependencies`: resolve the self-handle,
keep every module handle different from it (value comparison), and map each
survivor to its module id. -/
def CompiledModule.immediate_dependencies (m : CompiledModule) :
    Option (List ModuleId) :=
  match m.self_handle with
  | none => none
  | some self_h =>
    m.resolveAll (m.module_handles.filter (fun h => decide ¬(h = self_h)))

/-- Embeds `ModuleAccess::immediate_friends`: map every friend declaration to
its module id, with no filtering. -/
def CompiledModule.immediate_friends (m : CompiledModule) :
    Option (List ModuleId) :=
  m.resolveAll m.friend_decls

mutual

/-- Embeds `ModuleAccess::abilities` from `access.rs`.  `TypeParameter`,
`Struct` and `StructInstantiation` index into slices, so an out-of-bounds
index is a panic; the arity check inside `polymorphic_abilities` is a
structured error. -/
def abilities (m : CompiledModule) (ty : SignatureToken)
    (constraints : List AbilitySet) : RustResult AbilitySet :=
  match ty with
  | .Bool | .U8 | .U16 | .U32 | .U64 | .U128 | .U256 | .Address =>
    .ok AbilitySet.PRIMITIVES
  | .Reference _ | .MutableReference _ => .ok AbilitySet.REFERENCES
  | .Signer => .ok AbilitySet.SIGNER
  | .TypeParameter idx =>
    match constraints[idx]? with
    | some s => .ok s
    | none => .panicked
  | .Vector elem =>
    match abilities m elem constraints with
    | .ok s => AbilitySet.polymorphic_abilities AbilitySet.VECTOR [false] [s]
    | .err e => .err e
    | .panicked => .panicked
  | .Struct idx =>
    match m.struct_handles[idx]? with
    | some sh => .ok sh.abilities
    | none => .panicked
  | .StructInstantiation idx type_args =>
    match m.struct_handles[idx]? with
    | some sh =>
      match abilitiesList m type_args constraints with
      | .ok type_arguments =>
        AbilitySet.polymorphic_abilities sh.abilities
          (sh.type_parameters.map (fun p => p.is_phantom)) type_arguments
      | .err e => .err e
      | .panicked => .panicked
    | none => .panicked

/-- Embeds the `type_args.iter().map(|arg| self.abilities(arg, constraints))
.collect::<PartialVMResult<Vec<_>>>()?` step of the `StructInstantiation`
case: compute each argument's abilities left to right, short-circuiting on
the first error or panic. -/
def abilitiesList (m : CompiledModule) (tys : List SignatureToken)
    (constraints : List AbilitySet) : RustResult (List AbilitySet) :=
  match tys with
  | [] => .ok []
  | t :: rest =>
    match abilities m t constraints with
    | .ok s =>
      match abilitiesList m rest constraints with
      | .ok ss => .ok (s :: ss)
      | .err e => .err e
      | .panicked => .panicked
    | .err e => .err e
    | .panicked => .panicked

end

/-- Bounds check for a list of module handles against a module's identifier
pools, as a decidable boolean (the structural invariant the source trusts and
spot-checks with debug assertions). -/
def CompiledModule.handlesInBounds (m : CompiledModule) (hs : List ModuleHandle) : Bool :=
  hs.all (fun h =>
    decide (h.address < m.address_identifiers.length) &&
      decide (h.name < m.identifiers.length))

/-- Total resolution of a handle to a module id, defined whenever the handle's
indices are in bounds (default 0 otherwise). -/
def CompiledModule.resolveIdD (m : CompiledModule) (h : ModuleHandle) : ModuleId :=
  ⟨m.address_identifiers.getD h.address 0, m.identifiers.getD h.name 0⟩

theorem contains_inter (a b : AbilitySet) (x : Ability) :
    (a.inter b).contains x = (a.contains x && b.contains x) := by
  cases x <;> rfl

theorem foldl_inter_fst (l : List (AbilitySet × Bool)) (init : AbilitySet) :
    l.foldl (fun acc p => acc.inter p.1) init =
      (l.map Prod.fst).foldl AbilitySet.inter init := by
  induction l generalizing init with
  | nil => rfl
  | cons h t ih => simp [ih]

theorem foldl_inter_contains (l : List AbilitySet) (init : AbilitySet) (x : Ability) :
    (l.foldl AbilitySet.inter init).contains x =
      (init.contains x && l.all (fun s => s.contains x)) := by
  induction l generalizing init with
  | nil => simp
  | cons h t ih => simp [ih, contains_inter, Bool.and_assoc]

theorem zip_false_filter_map (sets : List AbilitySet) (phantoms : List Bool)
    (hlen : phantoms.length = sets.length)
    (hph : ∀ b ∈ phantoms, b = false) :
    ((sets.zip phantoms).filter (fun p => !p.2)).map Prod.fst = sets := by
  induction sets generalizing phantoms with
  | nil => simp
  | cons s rest ih =>
    cases phantoms with
    | nil => simp at hlen
    | cons b bs =>
      have hb : b = false := hph b (by simp)
      subst hb
      simp only [List.zip_cons_cons, List.filter_cons, Bool.not_false, if_true]
      simp only [List.map_cons, List.cons.injEq, true_and]
      exact ih bs (by simpa using hlen) (fun x hx => hph x (by simp [hx]))

theorem set_phantom_filter (phantoms : List Bool) (sets : List AbilitySet)
    (k : Nat) (X : AbilitySet) (hk : phantoms[k]? = some true) :
    ((sets.set k X).zip phantoms).filter (fun p => !p.2) =
      (sets.zip phantoms).filter (fun p => !p.2) := by
  induction phantoms generalizing sets k with
  | nil => simp at hk
  | cons b bs ih =>
    cases sets with
    | nil => simp
    | cons s ss =>
      cases k with
      | zero =>
        have hb : b = true := by simpa using hk
        subst hb
        simp [List.filter_cons]
      | succ j =>
        have hk' : bs[j]? = some true := by simpa using hk
        simp only [List.set_cons_succ, List.zip_cons_cons, List.filter_cons,
          ih ss j hk']

theorem abilitiesList_length (m : CompiledModule) (tys : List SignatureToken)
    (constraints sets : List AbilitySet)
    (h : abilitiesList m tys constraints = .ok sets) : sets.length = tys.length := by
  induction tys generalizing sets with
  | nil =>
    rw [abilitiesList] at h
    cases h
    rfl
  | cons t rest ih =>
    rw [abilitiesList] at h
    cases h1 : abilities m t constraints <;> rw [h1] at h
    case ok s =>
      cases h2 : abilitiesList m rest constraints <;> rw [h2] at h
      case ok ss =>
        cases h
        simpa using ih ss h2
      case err e => cases h
      case panicked => cases h
    case err e => cases h
    case panicked => cases h

theorem bool_imp_and_left (x y : Bool) : (!(x && y) || x) = true := by
  cases x <;> cases y <;> rfl

theorem inter_subsetB_left (a b : AbilitySet) :
    (a.inter b).subsetB a = true := by
  obtain ⟨ac, ad, a3, ak⟩ := a
  obtain ⟨bc, bd, b3, bk⟩ := b
  simp only [AbilitySet.inter, AbilitySet.subsetB]
  rw [bool_imp_and_left, bool_imp_and_left, bool_imp_and_left, bool_imp_and_left]
  rfl

theorem resolveAll_eq_map (m : CompiledModule) (l : List ModuleHandle)
    (hwf : ∀ h ∈ l, m.module_id_for_handle h = some (m.resolveIdD h)) :
    m.resolveAll l = some (l.map m.resolveIdD) := by
  induction l with
  | nil => rfl
  | cons h rest ih =>
    rw [CompiledModule.resolveAll]
    rw [hwf h (by simp), ih (fun x hx => hwf x (by simp [hx]))]
    rfl

theorem module_id_for_handle_of_bounds (m : CompiledModule) (h : ModuleHandle)
    (ha : h.address < m.address_identifiers.length)
    (hn : h.name < m.identifiers.length) :
    m.module_id_for_handle h = some (m.resolveIdD h) := by
  rw [CompiledModule.module_id_for_handle]
  rw [List.getElem?_eq_getElem ha, List.getElem?_eq_getElem hn]
  simp [CompiledModule.resolveIdD, List.getD_eq_getElem?_getD,
    List.getElem?_eq_getElem ha, List.getElem?_eq_getElem hn]

theorem handlesInBounds_forall (m : CompiledModule) (hs : List ModuleHandle)
    (hwf : m.handlesInBounds hs = true) :
    ∀ h ∈ hs, m.module_id_for_handle h = some (m.resolveIdD h) := by
  intro h hmem
  rw [CompiledModule.handlesInBounds, List.all_eq_true] at hwf
  have := hwf h hmem
  simp only [Bool.and_eq_true, decide_eq_true_eq] at this
  exact module_id_for_handle_of_bounds m h this.1 this.2

theorem abilities_structInstantiation (m : CompiledModule) (i : Nat)
    (type_args : List SignatureToken) (constraints : List AbilitySet) :
    abilities m (.StructInstantiation i type_args) constraints =
      match m.struct_handles[i]? with
      | some sh =>
        match abilitiesList m type_args constraints with
        | .ok type_arguments =>
          AbilitySet.polymorphic_abilities sh.abilities
            (sh.type_parameters.map (fun p => p.is_phantom)) type_arguments
        | .err e => .err e
        | .panicked => .panicked
      | none => .panicked := by
  rw [abilities]

/-- Concrete module with empty pools, used to exercise the panic paths. -/
def emptyModule : CompiledModule := ⟨0, [], [], [], [], []⟩

/-- Concrete struct handle declaring PRIMITIVES with one non-phantom type
parameter. -/
def nonPhantomHandle : StructHandle :=
  ⟨0, 0, AbilitySet.PRIMITIVES, [⟨AbilitySet.EMPTY, false⟩]⟩

/-- Concrete module whose only struct handle is `nonPhantomHandle`. -/
def nonPhantomModule : CompiledModule := ⟨0, [], [nonPhantomHandle], [], [], []⟩

/-- Concrete struct handle declaring all four abilities with one phantom type
parameter. -/
def phantomHandle : StructHandle :=
  ⟨0, 0, ⟨true, true, true, true⟩, [⟨AbilitySet.EMPTY, true⟩]⟩

/-- Concrete non-generic struct handle with an empty declared ability set. -/
def emptyAbilityHandle : StructHandle := ⟨0, 1, AbilitySet.EMPTY, []⟩

/-- Concrete module holding `phantomHandle` and `emptyAbilityHandle`. -/
def phantomModule : CompiledModule :=
  ⟨0, [], [phantomHandle, emptyAbilityHandle], [], [], []⟩

/-- C1: for a struct instantiation whose resolved struct handle declares zero
phantom type parameters and whose type-argument count equals the declared
type-parameter count, `abilities` returns exactly the pairwise intersection of
the handle's declared ability set with the computed ability set of every type
argument: an ability is in the result iff it is in the declared set and in
every argument's computed set. -/
theorem structInst_nonPhantom_intersection (m : CompiledModule) (i : Nat)
    (sh : StructHandle) (type_args : List SignatureToken)
    (constraints sets : List AbilitySet)
    (hsh : m.struct_handles[i]? = some sh)
    (hph : sh.type_parameters.all (fun p => !p.is_phantom) = true)
    (hlen : type_args.length = sh.type_parameters.length)
    (hargs : abilitiesList m type_args constraints = .ok sets) :
    abilities m (.StructInstantiation i type_args) constraints =
        .ok (sets.foldl AbilitySet.inter sh.abilities) ∧
      ∀ a : Ability, (sets.foldl AbilitySet.inter sh.abilities).contains a =
        (sh.abilities.contains a && sets.all (fun s => s.contains a)) := by
  have hslen : sets.length = type_args.length :=
    abilitiesList_length m type_args constraints sets hargs
  have hphlen : (sh.type_parameters.map (fun p => p.is_phantom)).length = sets.length := by
    simp [hslen, hlen]
  have hfalse : ∀ b ∈ sh.type_parameters.map (fun p => p.is_phantom), b = false := by
    intro b hb
    rw [List.mem_map] at hb
    obtain ⟨p, hp, hpb⟩ := hb
    rw [List.all_eq_true] at hph
    have hnp := hph p hp
    simp only [Bool.not_eq_true'] at hnp
    rw [← hpb, hnp]
  constructor
  · rw [abilities_structInstantiation, hsh, hargs]
    simp only [AbilitySet.polymorphic_abilities]
    rw [if_pos hphlen]
    rw [foldl_inter_fst, zip_false_filter_map sets _ hphlen hfalse]
  · intro a
    exact foldl_inter_contains sets sh.abilities a

/-- Witness for C1: the non-phantom handle declaring PRIMITIVES instantiated
with `Signer` (ability set SIGNER) yields PRIMITIVES ∩ SIGNER. -/
theorem structInst_nonPhantom_intersection_witness :
    (nonPhantomModule.struct_handles[0]? = some nonPhantomHandle ∧
      nonPhantomHandle.type_parameters.all (fun p => !p.is_phantom) = true ∧
      [SignatureToken.Signer].length = nonPhantomHandle.type_parameters.length ∧
      abilitiesList nonPhantomModule [SignatureToken.Signer] [] =
        .ok [AbilitySet.SIGNER]) ∧
    abilities nonPhantomModule (.StructInstantiation 0 [SignatureToken.Signer]) [] =
      .ok ([AbilitySet.SIGNER].foldl AbilitySet.inter nonPhantomHandle.abilities) ∧
    ([AbilitySet.SIGNER].foldl AbilitySet.inter nonPhantomHandle.abilities).contains .copy =
      (nonPhantomHandle.abilities.contains .copy &&
        [AbilitySet.SIGNER].all (fun s => s.contains .copy)) ∧
    ([AbilitySet.SIGNER].foldl AbilitySet.inter nonPhantomHandle.abilities).contains .drop =
      (nonPhantomHandle.abilities.contains .drop &&
        [AbilitySet.SIGNER].all (fun s => s.contains .drop)) ∧
    ([AbilitySet.SIGNER].foldl AbilitySet.inter nonPhantomHandle.abilities).contains .store =
      (nonPhantomHandle.abilities.contains .store &&
        [AbilitySet.SIGNER].all (fun s => s.contains .store)) ∧
    ([AbilitySet.SIGNER].foldl AbilitySet.inter nonPhantomHandle.abilities).contains .key =
      (nonPhantomHandle.abilities.contains .key &&
        [AbilitySet.SIGNER].all (fun s => s.contains .key)) :=
  ⟨⟨by decide, by decide, by decide, by decide⟩,
    (structInst_nonPhantom_intersection nonPhantomModule 0 nonPhantomHandle
      [SignatureToken.Signer] [] [AbilitySet.SIGNER]
      (by decide) (by decide) (by decide) (by decide)).1,
    (structInst_nonPhantom_intersection nonPhantomModule 0 nonPhantomHandle
      [SignatureToken.Signer] [] [AbilitySet.SIGNER]
      (by decide) (by decide) (by decide) (by decide)).2 .copy,
    (structInst_nonPhantom_intersection nonPhantomModule 0 nonPhantomHandle
      [SignatureToken.Signer] [] [AbilitySet.SIGNER]
      (by decide) (by decide) (by decide) (by decide)).2 .drop,
    (structInst_nonPhantom_intersection nonPhantomModule 0 nonPhantomHandle
      [SignatureToken.Signer] [] [AbilitySet.SIGNER]
      (by decide) (by decide) (by decide) (by decide)).2 .store,
    (structInst_nonPhantom_intersection nonPhantomModule 0 nonPhantomHandle
      [SignatureToken.Signer] [] [AbilitySet.SIGNER]
      (by decide) (by decide) (by decide) (by decide)).2 .key⟩

/-- C2: for a struct instantiation whose k-th declared type parameter is
phantom, replacing the k-th computed argument ability set by any other set
(all other positions and the constraints held fixed) leaves the result of
`abilities` unchanged. -/
theorem structInst_phantom_invariance (m : CompiledModule) (i k : Nat)
    (sh : StructHandle) (param : StructTypeParameter)
    (args1 args2 : List SignatureToken) (constraints sets : List AbilitySet)
    (X : AbilitySet)
    (hsh : m.struct_handles[i]? = some sh)
    (hk : sh.type_parameters[k]? = some param)
    (hph : param.is_phantom = true)
    (ha1 : abilitiesList m args1 constraints = .ok sets)
    (ha2 : abilitiesList m args2 constraints = .ok (sets.set k X))
    (hl1 : args1.length = sh.type_parameters.length)
    (hl2 : args2.length = sh.type_parameters.length) :
    abilities m (.StructInstantiation i args1) constraints =
      abilities m (.StructInstantiation i args2) constraints := by
  have hphantom : (sh.type_parameters.map (fun p => p.is_phantom))[k]? = some true := by
    simp [List.getElem?_map, hk, hph]
  have hs1 : sets.length = args1.length :=
    abilitiesList_length m args1 constraints sets ha1
  have hs2 : (sets.set k X).length = args2.length :=
    abilitiesList_length m args2 constraints (sets.set k X) ha2
  rw [abilities_structInstantiation, abilities_structInstantiation, hsh, ha1, ha2]
  simp only [AbilitySet.polymorphic_abilities]
  rw [if_pos (by simp only [List.length_map]; rw [hs1, hl1]),
    if_pos (by simp only [List.length_map]; rw [hs2, hl2])]
  rw [set_phantom_filter (sh.type_parameters.map (fun p => p.is_phantom)) sets k X hphantom]

/-- Witness for C2: the handle declaring all four abilities with one phantom
parameter gives the same result whether the argument's ability set is empty
(`Struct 1`, resolving to an empty declared set) or PRIMITIVES (`Bool`), and
with the empty-set argument the result is the full declared set, unchanged. -/
theorem structInst_phantom_invariance_witness :
    (phantomModule.struct_handles[0]? = some phantomHandle ∧
      phantomHandle.type_parameters[0]? = some ⟨AbilitySet.EMPTY, true⟩ ∧
      abilitiesList phantomModule [SignatureToken.Struct 1] [] =
        .ok [AbilitySet.EMPTY] ∧
      abilitiesList phantomModule [SignatureToken.Bool] [] =
        .ok ([AbilitySet.EMPTY].set 0 AbilitySet.PRIMITIVES)) ∧
    abilities phantomModule (.StructInstantiation 0 [SignatureToken.Struct 1]) [] =
      abilities phantomModule (.StructInstantiation 0 [SignatureToken.Bool]) [] ∧
    abilities phantomModule (.StructInstantiation 0 [SignatureToken.Struct 1]) [] =
      .ok ⟨true, true, true, true⟩ :=
  ⟨⟨by decide, by decide, by decide, by decide⟩,
    structInst_phantom_invariance phantomModule 0 0 phantomHandle
      ⟨AbilitySet.EMPTY, true⟩ [SignatureToken.Struct 1] [SignatureToken.Bool]
      [] [AbilitySet.EMPTY] AbilitySet.PRIMITIVES
      (by decide) (by decide) (by decide) (by decide) (by decide)
      (by decide) (by decide),
    by decide⟩

/-- C3: a struct instantiation whose type-argument count differs from the
resolved handle's declared type-parameter count (with the handle resolving
and every argument's recursive computation succeeding) yields the structured
validation error — an `err` result, not a panic, and no truncation. -/
theorem structInst_arity_mismatch (m : CompiledModule) (i : Nat)
    (sh : StructHandle) (type_args : List SignatureToken)
    (constraints sets : List AbilitySet)
    (hsh : m.struct_handles[i]? = some sh)
    (hargs : abilitiesList m type_args constraints = .ok sets)
    (hlen : type_args.length ≠ sh.type_parameters.length) :
    abilities m (.StructInstantiation i type_args) constraints =
      .err StatusCode.typeArityMismatch := by
  have hs : sets.length = type_args.length :=
    abilitiesList_length m type_args constraints sets hargs
  rw [abilities_structInstantiation, hsh, hargs]
  simp only [AbilitySet.polymorphic_abilities]
  rw [if_neg (by simp only [List.length_map, hs]; exact fun h => hlen h.symm)]

/-- Witness for C3: instantiating the one-parameter handle with zero type
arguments yields the validation error. -/
theorem structInst_arity_mismatch_witness :
    (nonPhantomModule.struct_handles[0]? = some nonPhantomHandle ∧
      abilitiesList nonPhantomModule [] [] = .ok [] ∧
      (List.nil (α := SignatureToken)).length ≠
        nonPhantomHandle.type_parameters.length) ∧
    abilities nonPhantomModule (.StructInstantiation 0 []) [] =
      .err StatusCode.typeArityMismatch :=
  ⟨⟨by decide, by decide, by decide⟩,
    structInst_arity_mismatch nonPhantomModule 0 nonPhantomHandle [] [] []
      (by decide) (by decide) (by decide)⟩

/-- C4 counterexample: at the concrete input `TypeParameter 0` with an empty
constraints array, `abilities` panics on out-of-bounds slice indexing, so it
does not report the structured validation error the claim requires for an
out-of-range type-parameter index. -/
theorem typeParameter_oob_counterexample :
    abilities emptyModule (.TypeParameter 0) [] = .panicked ∧
      abilities emptyModule (.TypeParameter 0) [] ≠
        .err StatusCode.typeArityMismatch := by
  constructor
  · rfl
  · decide

/-- C4 (amended): `abilities(TypeParameter(i), c)` returns `Ok(c[i])` when
`i` is in range of the constraints array; when `i` is out of range the code
panics on slice indexing (an assertion-type failure), not a structured
validation error. -/
theorem typeParameter_abilities (m : CompiledModule)
    (constraints : List AbilitySet) (i : Nat) :
    (i < constraints.length →
      abilities m (.TypeParameter i) constraints =
        .ok (constraints.getD i AbilitySet.EMPTY)) ∧
    (constraints.length ≤ i →
      abilities m (.TypeParameter i) constraints = .panicked) := by
  constructor
  · intro h
    rw [abilities, List.getElem?_eq_getElem h]
    simp [List.getD_eq_getElem?_getD, List.getElem?_eq_getElem h]
  · intro h
    rw [abilities, List.getElem?_eq_none h]

/-- Witness for the amended C4: with constraints `[SIGNER]`, index 0 resolves
to SIGNER and index 5 panics. -/
theorem typeParameter_abilities_witness :
    (0 < [AbilitySet.SIGNER].length ∧
      abilities emptyModule (.TypeParameter 0) [AbilitySet.SIGNER] =
        .ok ([AbilitySet.SIGNER].getD 0 AbilitySet.EMPTY)) ∧
    ([AbilitySet.SIGNER].length ≤ 5 ∧
      abilities emptyModule (.TypeParameter 5) [AbilitySet.SIGNER] = .panicked) :=
  ⟨⟨by decide,
      (typeParameter_abilities emptyModule [AbilitySet.SIGNER] 0).1 (by decide)⟩,
    ⟨by decide,
      (typeParameter_abilities emptyModule [AbilitySet.SIGNER] 5).2 (by decide)⟩⟩

/-- C5: whenever `abilities(Vector(T), c)` succeeds, the resulting ability set
is a subset of the declared VECTOR base set — the polymorphic composition
step never adds an ability beyond the declared base. -/
theorem vector_abilities_subset (m : CompiledModule) (elem : SignatureToken)
    (constraints : List AbilitySet) (S : AbilitySet)
    (h : abilities m (.Vector elem) constraints = .ok S) :
    S.subsetB AbilitySet.VECTOR = true := by
  rw [abilities] at h
  cases h1 : abilities m elem constraints <;> rw [h1] at h
  case ok s =>
    have h2 : RustResult.ok (AbilitySet.VECTOR.inter s) = RustResult.ok S := h
    injection h2 with h
    rw [← h]
    exact inter_subsetB_left AbilitySet.VECTOR s
  case err e => simp at h
  case panicked => simp at h

/-- Witness for C5: `abilities(Vector(U8), [])` computes VECTOR ∩ PRIMITIVES,
which is a subset of VECTOR. -/
theorem vector_abilities_subset_witness :
    abilities emptyModule (.Vector .U8) [] =
        .ok ⟨true, true, true, false⟩ ∧
      AbilitySet.subsetB ⟨true, true, true, false⟩ AbilitySet.VECTOR = true :=
  ⟨by decide,
    vector_abilities_subset emptyModule .U8 [] ⟨true, true, true, false⟩ (by decide)⟩

/-- C6: for a struct handle index in bounds of the struct-handle pool,
`abilities(Struct(h), c)` returns exactly the ability set declared on the
resolved handle, for every constraints array `c`. -/
theorem struct_declared_abilities (m : CompiledModule) (i : Nat)
    (sh : StructHandle) (constraints : List AbilitySet)
    (hsh : m.struct_handles[i]? = some sh) :
    abilities m (.Struct i) constraints = .ok sh.abilities := by
  rw [abilities, hsh]

/-- Witness for C6: the handle at index 0 of `nonPhantomModule` resolves to
its declared PRIMITIVES, with a nonempty constraints array present. -/
theorem struct_declared_abilities_witness :
    nonPhantomModule.struct_handles[0]? = some nonPhantomHandle ∧
      abilities nonPhantomModule (.Struct 0) [AbilitySet.REFERENCES] =
        .ok nonPhantomHandle.abilities :=
  ⟨by decide,
    struct_declared_abilities nonPhantomModule 0 nonPhantomHandle
      [AbilitySet.REFERENCES] (by decide)⟩

/-- C7: for every module and constraints array, the primitive types yield
PRIMITIVES, references (mutable or not) yield REFERENCES for every inner
type, and `Signer` yields SIGNER. -/
theorem base_type_abilities (m : CompiledModule) (constraints : List AbilitySet) :
    abilities m .Bool constraints = .ok AbilitySet.PRIMITIVES ∧
    abilities m .U8 constraints = .ok AbilitySet.PRIMITIVES ∧
    abilities m .U16 constraints = .ok AbilitySet.PRIMITIVES ∧
    abilities m .U32 constraints = .ok AbilitySet.PRIMITIVES ∧
    abilities m .U64 constraints = .ok AbilitySet.PRIMITIVES ∧
    abilities m .U128 constraints = .ok AbilitySet.PRIMITIVES ∧
    abilities m .U256 constraints = .ok AbilitySet.PRIMITIVES ∧
    abilities m .Address constraints = .ok AbilitySet.PRIMITIVES ∧
    (∀ inner : SignatureToken,
      abilities m (.Reference inner) constraints = .ok AbilitySet.REFERENCES) ∧
    (∀ inner : SignatureToken,
      abilities m (.MutableReference inner) constraints = .ok AbilitySet.REFERENCES) ∧
    abilities m .Signer constraints = .ok AbilitySet.SIGNER :=
  ⟨rfl, rfl, rfl, rfl, rfl, rfl, rfl, rfl, fun _ => rfl, fun _ => rfl, rfl⟩

/-- C8: `immediate_dependencies` returns the module ids of exactly those
module-handle pool entries whose handle differs from the self-handle (value
comparison), in the pool's original relative order and with no deduplication
of distinct entries — the filter-then-map of the pool. -/
theorem immediate_dependencies_spec (m : CompiledModule) (self_h : ModuleHandle)
    (hself : m.self_handle = some self_h)
    (hwf : m.handlesInBounds m.module_handles = true) :
    m.immediate_dependencies =
      some ((m.module_handles.filter
        (fun h => decide ¬(h = self_h))).map m.resolveIdD) := by
  rw [CompiledModule.immediate_dependencies, hself]
  exact resolveAll_eq_map m _ (fun h hmem =>
    handlesInBounds_forall m m.module_handles hwf h (List.mem_of_mem_filter hmem))

/-- Concrete module whose handle pool holds the self-handle twice (positions 0
and 2) around a distinct handle. -/
def depModule : CompiledModule :=
  ⟨0, [⟨0, 0⟩, ⟨1, 1⟩, ⟨0, 0⟩], [], [], [7, 8], [3, 4]⟩

/-- Witness for C8: both pool entries equal to the self-handle are excluded
and only the distinct middle handle's id remains. -/
theorem immediate_dependencies_witness :
    (depModule.self_handle = some ⟨0, 0⟩ ∧
      depModule.handlesInBounds depModule.module_handles = true) ∧
    depModule.immediate_dependencies =
      some ((depModule.module_handles.filter
        (fun h => decide ¬(h = (⟨0, 0⟩ : ModuleHandle)))).map depModule.resolveIdD) :=
  ⟨⟨by decide, by decide⟩,
    immediate_dependencies_spec depModule ⟨0, 0⟩ (by decide) (by decide)⟩

/-- C9: references succeed without examining the inner type: `Reference` and
`MutableReference` yield REFERENCES for every inner type, including inner
types on which `abilities` itself fails (an out-of-range type parameter, and
an out-of-bounds struct handle). -/
theorem reference_ignores_inner (m : CompiledModule) (inner : SignatureToken)
    (constraints : List AbilitySet) :
    abilities m (.Reference inner) constraints = .ok AbilitySet.REFERENCES ∧
    abilities m (.MutableReference inner) constraints = .ok AbilitySet.REFERENCES ∧
    abilities emptyModule (.TypeParameter 0) [] = .panicked ∧
    abilities emptyModule (.Reference (.TypeParameter 0)) [] =
      .ok AbilitySet.REFERENCES ∧
    abilities emptyModule (.Struct 0) [] = .panicked ∧
    abilities emptyModule (.MutableReference (.Struct 0)) [] =
      .ok AbilitySet.REFERENCES :=
  ⟨rfl, rfl, rfl, rfl, rfl, rfl⟩

/-- C10: `immediate_friends` maps every friend declaration to its module id
in declaration order with no filtering, so its result has exactly one entry
per friend declaration. -/
theorem immediate_friends_spec (m : CompiledModule)
    (hwf : m.handlesInBounds m.friend_decls = true) :
    m.immediate_friends = some (m.friend_decls.map m.resolveIdD) ∧
      (m.friend_decls.map m.resolveIdD).length = m.friend_decls.length := by
  constructor
  · rw [CompiledModule.immediate_friends]
    exact resolveAll_eq_map m m.friend_decls (handlesInBounds_forall m m.friend_decls hwf)
  · simp

/-- Concrete module whose friend list holds its own self-handle twice. -/
def friendModule : CompiledModule :=
  ⟨0, [⟨0, 0⟩], [], [⟨0, 0⟩, ⟨0, 0⟩], [7], [3]⟩

/-- Witness for C10: duplicate friend declarations equal to the self-handle
are kept, one output id per declaration. -/
theorem immediate_friends_witness :
    friendModule.handlesInBounds friendModule.friend_decls = true ∧
    friendModule.immediate_friends =
        some (friendModule.friend_decls.map friendModule.resolveIdD) ∧
      (friendModule.friend_decls.map friendModule.resolveIdD).length =
        friendModule.friend_decls.length :=
  ⟨by decide, immediate_friends_spec friendModule (by decide)⟩

end MoveAccess
